import Mathlib

/-!
# Verification of the SoulTalk backend signal-fusion core

Shallow embedding of the decision logic of
`backend/services/text_analysis_service.py`,
`backend/services/vision_service.py` and `backend/ai_engine.py`.

Modelling conventions:
* Python `str` is modelled as `List Char` (`Str`); `str.lower()` is
  `List.map Char.toLower` (both only fold ASCII upper case);
  `p in t` substring tests and `t.startswith(p)` are the executable
  functions `containsSub` and `headMatch` below.
* Python floats that only ever take small decimal values and are compared
  or combined linearly are modelled as rationals (`ℚ`).
* Black-box predictors (scikit-learn / transformers / MediaPipe models)
  are parameters: `Option f` models a possibly-unloaded model and an
  `Option`/`Except` result models `predict` either returning or raising.
-/

/-- Python strings, modelled as their character lists. -/
abbrev Str : Type := List Char

/-- The character list of a Lean string literal (used to write Python
string constants). -/
def chars (x : String) : Str := x.data

/-- Python `t.startswith(p)`: does `p` match at the head of `t`?
(`headMatch p t`). -/
def headMatch : Str → Str → Bool
  | [], _ => true
  | _ :: _, [] => false
  | c :: cs, d :: ds => c == d && headMatch cs ds

/-- Python `p in t`: does `p` occur contiguously anywhere in `t`?
(`containsSub p t`). -/
def containsSub (p : Str) : Str → Bool
  | [] => headMatch p []
  | c :: rest => headMatch p (c :: rest) || containsSub p rest

/-- Python `text.lower()` (ASCII case folding, as in `Char.toLower`). -/
def lowerStr (t : Str) : Str := t.map Char.toLower

/-- Python `not text or len(text.strip()) == 0`: the text is empty or
whitespace-only. -/
def isBlank (t : Str) : Bool := t.all Char.isWhitespace

/-- `CRISIS_KEYWORDS` from `text_analysis_service.py`. -/
def CRISIS_KEYWORDS : List Str :=
  [chars "suicide", chars "kill myself", chars "kill me", chars "want to die",
   chars "end my life", chars "end it all", chars "hurt myself", chars "self harm",
   chars "cutting myself", chars "overdose", chars "not worth living",
   chars "better off dead", chars "no reason to live", chars "can\x27t go on",
   chars "give up", chars "hopeless", chars "worthless"]

/-- `CRISIS_EMOTIONS` from `text_analysis_service.py`. -/
def CRISIS_EMOTIONS : List Str := [chars "fear", chars "sadness", chars "disgust"]

/-- The `emotion_result` dict consumed by `detect_crisis`
(`{"emotion": ..., "confidence": ...}`). -/
structure EmotionResult where
  emotion : Str
  confidence : ℚ
deriving DecidableEq, Repr

/-- The dict returned by `detect_crisis`. -/
structure CrisisResult where
  is_crisis : Bool
  confidence : ℚ
  triggers : List Str
  source : Str
deriving DecidableEq, Repr

/-- The keyword scan of `detect_crisis`: for each lexicon phrase contained
in the lowered text (lexicon order), the trigger string `"keyword:" ++ k`. -/
def kwTriggers (text_lower : Str) : List Str :=
  (CRISIS_KEYWORDS.filter (fun k => containsSub k text_lower)).map
    (fun k => chars "keyword:" ++ k)

/-- The emotion-signal step of `detect_crisis`: an `"emotion:" ++ e` trigger
when the (lowered) emotion label is in `CRISIS_EMOTIONS` with confidence
strictly above `0.7`. -/
def emTrigger : Option EmotionResult → List Str
  | none => []
  | some er =>
    let emotion := lowerStr er.emotion
    if CRISIS_EMOTIONS.contains emotion && decide (er.confidence > mkRat 7 10) then
      [chars "emotion:" ++ emotion]
    else []

/-- `detect_crisis` from `text_analysis_service.py`: empty-text
short-circuit, keyword scan, emotion signal, then the fusion decision
table.  No predictor model is consulted anywhere in this function. -/
def detect_crisis (text : Str) (emotion_result : Option EmotionResult) :
    CrisisResult :=
  if isBlank text then ⟨false, 0, [], chars "empty"⟩
  else
    let text_lower := lowerStr text
    let triggers := kwTriggers text_lower ++ emTrigger emotion_result
    let keyword_match := triggers.any (fun t => headMatch (chars "keyword:") t)
    let emotion_match := triggers.any (fun t => headMatch (chars "emotion:") t)
    if keyword_match && emotion_match then
      ⟨true, mkRat 95 100, triggers, chars "combined"⟩
    else if keyword_match then
      ⟨true, mkRat 85 100, triggers, chars "keyword"⟩
    else if emotion_match && decide (text.length > 50) then
      ⟨true, mkRat 6 10, triggers, chars "emotion"⟩
    else ⟨false, mkRat 1 10, [], chars "none"⟩

/-- The dict returned by `analyze_sentiment`. -/
structure SentimentResult where
  label : Str
  score : ℚ
  source : Str
deriving DecidableEq, Repr

/-- `positive_words` from the fallback branch of `analyze_sentiment`. -/
def positive_words : List Str :=
  [chars "happy", chars "good", chars "great", chars "love", chars "excellent",
   chars "wonderful", chars "amazing"]

/-- `negative_words` from the fallback branch of `analyze_sentiment`. -/
def negative_words : List Str :=
  [chars "sad", chars "bad", chars "hate", chars "terrible", chars "awful",
   chars "horrible", chars "angry"]

/-- `analyze_sentiment` from `text_analysis_service.py` in the case where
`_get_sentiment_pipeline()` returned `None` (or the pipeline call raised):
the empty-input check followed by the keyword-count fallback. -/
def analyze_sentiment_fallback (text : Str) : SentimentResult :=
  if isBlank text then ⟨chars "neutral", mkRat 1 2, chars "empty"⟩
  else
    let text_lower := lowerStr text
    let pos_count :=
      (positive_words.filter (fun w => containsSub w text_lower)).length
    let neg_count :=
      (negative_words.filter (fun w => containsSub w text_lower)).length
    if pos_count > neg_count then ⟨chars "positive", mkRat 6 10, chars "fallback"⟩
    else if neg_count > pos_count then
      ⟨chars "negative", mkRat 6 10, chars "fallback"⟩
    else ⟨chars "neutral", mkRat 1 2, chars "fallback"⟩

/-- The dict returned by `analyze_emotion`. -/
structure EmotionRes where
  emotion : Str
  confidence : ℚ
  all_emotions : List (Str × ℚ)
  source : Str
deriving DecidableEq, Repr

/-- `emotion_keywords` from the fallback branch of `analyze_emotion`, in
dict declaration order. -/
def emotion_keywords : List (Str × List Str) :=
  [(chars "joy",
    [chars "happy", chars "glad", chars "excited", chars "wonderful",
     chars "great", chars "love"]),
   (chars "sadness",
    [chars "sad", chars "depressed", chars "unhappy", chars "miserable",
     chars "crying", chars "lonely"]),
   (chars "anger",
    [chars "angry", chars "furious", chars "mad", chars "annoyed",
     chars "frustrated", chars "hate"]),
   (chars "fear",
    [chars "scared", chars "afraid", chars "worried", chars "anxious",
     chars "nervous", chars "terrified"]),
   (chars "surprise",
    [chars "surprised", chars "shocked", chars "amazed", chars "unexpected",
     chars "wow"])]

/-- The `for emotion, keywords in emotion_keywords.items()` loop of
`analyze_emotion`: return on the first declared category with any keyword
hit. -/
def emotionLoop (text_lower : Str) : List (Str × List Str) → EmotionRes
  | [] => ⟨chars "neutral", mkRat 1 2, [], chars "fallback"⟩
  | (emotion, keywords) :: rest =>
    if keywords.any (fun kw => containsSub kw text_lower) then
      ⟨emotion, mkRat 6 10, [], chars "fallback"⟩
    else emotionLoop text_lower rest

/-- `analyze_emotion` from `text_analysis_service.py` in the case where
`_get_emotion_pipeline()` returned `None` (or the pipeline call raised):
the empty-input check followed by the keyword fallback loop. -/
def analyze_emotion_fallback (text : Str) : EmotionRes :=
  if isBlank text then ⟨chars "neutral", mkRat 1 2, [], chars "empty"⟩
  else emotionLoop (lowerStr text) emotion_keywords

/-- The dict built by `AIEngine.analyze_text` in `ai_engine.py`. -/
structure AIResult where
  sentiment : Str
  emotion : Str
  is_crisis : Bool
  confidence : ℚ
deriving DecidableEq, Repr

/-- `self.crisis_keywords` from `AIEngine.__init__`. -/
def ai_crisis_keywords : List Str :=
  [chars "suicide", chars "kill myself", chars "die", chars "end it",
   chars "hurt myself", chars "cutting", chars "overdose", chars "depressed",
   chars "anxiety", chars "help me", chars "want to die",
   chars "not worth living", chars "end my life"]

/-- The positive-class test of `AIEngine.analyze_text` step 3:
`str(pred) == '1' or str(pred).lower() == 'true' or str(pred) == 'crisis'`. -/
def crisisPositive (pred : Str) : Bool :=
  pred == chars "1" || lowerStr pred == chars "true" || pred == chars "crisis"

/-- A loaded model's `predict` on one input: `some label` on success,
`none` when the call raises (the `except: pass` path). -/
abbrev Predict : Type := Str → Option Str

/-- `AIEngine.analyze_text` from `ai_engine.py`.  The three optional
`sklearn` models are parameters (`none` models a model that failed to
load).  Note that the crisis keywords are consulted only in the `else`
branch, i.e. only when `crisis_model` is `None`. -/
def AIEngine_analyze_text (sentiment_model emotion_model crisis_model :
    Option Predict) (text : Str) : AIResult :=
  let result0 : AIResult := ⟨chars "Neutral", chars "Neutral", false, 0⟩
  if text == [] then result0
  else
    let r1 := match sentiment_model with
      | some m => match m text with
        | some lbl => { result0 with sentiment := lbl }
        | none => result0
      | none => result0
    let r2 := match emotion_model with
      | some m => match m text with
        | some lbl => { r1 with emotion := lbl }
        | none => r1
      | none => r1
    match crisis_model with
    | some m => match m text with
      | some pred =>
        if crisisPositive pred then { r2 with is_crisis := true } else r2
      | none => r2
    | none =>
      if ai_crisis_keywords.any (fun k => containsSub k (lowerStr text)) then
        { r2 with is_crisis := true }
      else r2

/-- A crisis model that labels every input with the negative class `"0"`. -/
def negCrisisModel : Predict := fun _ => some (chars "0")

/-- Python dict lookup with default `0`: first matching key wins in
`lookupD`; `shapesGet` applies it to the reversed list so that the last
insertion wins, as when the dict is built by repeated assignment. -/
def lookupD (l : List (Str × ℚ)) (name : Str) : ℚ :=
  match l with
  | [] => 0
  | p :: rest => if p.1 == name then p.2 else lookupD rest name

/-- `shapes.get(name, 0)` where `shapes` was built by
`for shape in blendshapes: shapes[shape.category_name] = shape.score`. -/
def shapesGet (shapes : List (Str × ℚ)) (name : Str) : ℚ :=
  lookupD shapes.reverse name

/-- `_blendshapes_to_emotion` from `vision_service.py`: derive the seven
metrics, then the ordered threshold cascade (first match wins). -/
def blendshapes_to_emotion (blendshapes : List (Str × ℚ)) : Str × ℚ :=
  let smile := (shapesGet blendshapes (chars "mouthSmileLeft")
    + shapesGet blendshapes (chars "mouthSmileRight")) / 2
  let frown := (shapesGet blendshapes (chars "mouthFrownLeft")
    + shapesGet blendshapes (chars "mouthFrownRight")) / 2
  let brow_down := (shapesGet blendshapes (chars "browDownLeft")
    + shapesGet blendshapes (chars "browDownRight")) / 2
  let brow_up := shapesGet blendshapes (chars "browInnerUp")
  let jaw_open := shapesGet blendshapes (chars "jawOpen")
  let eye_wide := (shapesGet blendshapes (chars "eyeWideLeft")
    + shapesGet blendshapes (chars "eyeWideRight")) / 2
  let eye_squint := (shapesGet blendshapes (chars "eyeSquintLeft")
    + shapesGet blendshapes (chars "eyeSquintRight")) / 2
  if smile > 3/10 ∧ eye_squint > 2/10 then (chars "happy", min (1/2 + smile) 1)
  else if frown > 3/10 then (chars "sad", 6/10 + frown * (3/10))
  else if brow_down > 3/10 then (chars "angry", 6/10 + brow_down * (3/10))
  else if jaw_open > 4/10 ∧ eye_wide > 3/10 then (chars "surprised", 7/10)
  else if brow_up > 3/10 ∧ eye_wide > 2/10 then (chars "fearful", 6/10)
  else if smile > 15/100 then (chars "happy", 1/2 + smile * (1/2))
  else if frown > 15/100 then (chars "sad", 1/2)
  else (chars "neutral", 1/2)

/-- Python `round(x, 3)`, modelled as rational rounding to thousandths
(Python rounds the underlying binary float half-to-even; on the exact
rationals used here the two agree except at exact .0005 ties). -/
def round3 (q : ℚ) : ℚ := (round (q * 1000) : ℤ) / 1000

/-- The `metrics` dict built by `detect_face_emotion` for the frontend:
note its keys are `smile`, `frown`, `brow_down`, `jaw_open`. -/
def faceMetrics (blendshapes : List (Str × ℚ)) : List (Str × ℚ) :=
  let shapes := blendshapes.map (fun p => (p.1, round3 p.2))
  [(chars "smile", (shapesGet shapes (chars "mouthSmileLeft")
      + shapesGet shapes (chars "mouthSmileRight")) / 2),
   (chars "frown", (shapesGet shapes (chars "mouthFrownLeft")
      + shapesGet shapes (chars "mouthFrownRight")) / 2),
   (chars "brow_down", (shapesGet shapes (chars "browDownLeft")
      + shapesGet shapes (chars "browDownRight")) / 2),
   (chars "jaw_open", shapesGet shapes (chars "jawOpen"))]

/-- The dict returned by `detect_face_emotion`. -/
structure FaceResult where
  emotion : Str
  confidence : ℚ
  face_detected : Bool
  metrics : Option (List (Str × ℚ))
  source : Str
  error : Option Str
deriving DecidableEq, Repr

/-- `detect_face_emotion` from `vision_service.py`.  External effects are
parameters: `landmarker = none` models `_get_face_landmarker()` returning
`None`; `decode` models `_decode_base64_image` (`none` = decode failure);
a loaded landmarker's `detect` yields either the list of per-face
blendshape lists or, via `Except.error`, an exception message. -/
def detect_face_emotion {Img : Type}
    (landmarker : Option (Img → Except Str (List (List (Str × ℚ)))))
    (decode : Str → Option Img) (base64_image : Str) : FaceResult :=
  match landmarker with
  | none =>
    ⟨chars "neutral", 0, false, none, chars "error",
      some (chars "Face landmarker not available")⟩
  | some detect =>
    match decode base64_image with
    | none => ⟨chars "neutral", 0, false, none, chars "decode_error", none⟩
    | some img =>
      match detect img with
      | Except.error e => ⟨chars "neutral", 0, false, none, chars "error", some e⟩
      | Except.ok faces =>
        match faces with
        | [] => ⟨chars "neutral", 0, false, none, chars "no_face", none⟩
        | f :: _ =>
          let ec := blendshapes_to_emotion f
          ⟨ec.1, ec.2, true, some (faceMetrics f), chars "mediapipe", none⟩

/-- Whether any phrase of a lexicon occurs in the lowered text. -/
def lexAny (lex : List Str) (text : Str) : Bool :=
  lex.any (fun k => containsSub k (lowerStr text))

/-- Keyword hit for the crisis fusion: some `CRISIS_KEYWORDS` phrase
occurs in the lowered text. -/
def kwHit (text : Str) : Bool := lexAny CRISIS_KEYWORDS text

/-- Emotion-signal hit for the crisis fusion: the (lowered) emotion label
is in the high-risk set with confidence strictly above 0.7. -/
def emHit : Option EmotionResult → Bool
  | none => false
  | some er =>
    CRISIS_EMOTIONS.contains (lowerStr er.emotion) &&
      decide (er.confidence > mkRat 7 10)

/-- The fusion decision table exactly as the spec states it (section 4.4
step 3 together with the trigger rules of steps 1 and 2); written from the
spec's words to be compared with `detect_crisis`. -/
def crisisTableSpec (text : Str) (er : Option EmotionResult) : CrisisResult :=
  if kwHit text && emHit er then
    ⟨true, mkRat 95 100, kwTriggers (lowerStr text) ++ emTrigger er,
      chars "combined"⟩
  else if kwHit text then
    ⟨true, mkRat 85 100, kwTriggers (lowerStr text), chars "keyword"⟩
  else if emHit er && decide (text.length > 50) then
    ⟨true, mkRat 6 10, emTrigger er, chars "emotion"⟩
  else ⟨false, mkRat 1 10, [], chars "none"⟩

/-- Per-category lexicon hit count (Python
`sum(1 for w in words if w in text_lower)`). -/
def hitCount (words : List Str) (text_lower : Str) : Nat :=
  (words.filter (fun w => containsSub w text_lower)).length

/-- The emotion fallback as amended: the first declared category with any
lexicon hit (written with `List.find?` to state the rule independently of
the loop). -/
def emotionFirstHitSpec (text_lower : Str) : EmotionRes :=
  match emotion_keywords.find?
      (fun p => p.2.any (fun kw => containsSub kw text_lower)) with
  | some p => ⟨p.1, mkRat 6 10, [], chars "fallback"⟩
  | none => ⟨chars "neutral", mkRat 1 2, [], chars "fallback"⟩

/-- The derived metrics of spec section 4.3, written from the spec's
words: the paired left/right activations are averaged, `browInnerUp` and
`jawOpen` are read directly. -/
structure FaceMetricsSpec where
  smile : ℚ
  frown : ℚ
  brow_down : ℚ
  brow_up : ℚ
  jaw_open : ℚ
  eye_wide : ℚ
  eye_squint : ℚ

/-- Metrics derivation from a blendshape-score mapping (unseen categories
default to 0 via `shapesGet`). -/
def faceMetricsOfShapes (bs : List (Str × ℚ)) : FaceMetricsSpec where
  smile := (shapesGet bs (chars "mouthSmileLeft")
    + shapesGet bs (chars "mouthSmileRight")) / 2
  frown := (shapesGet bs (chars "mouthFrownLeft")
    + shapesGet bs (chars "mouthFrownRight")) / 2
  brow_down := (shapesGet bs (chars "browDownLeft")
    + shapesGet bs (chars "browDownRight")) / 2
  brow_up := shapesGet bs (chars "browInnerUp")
  jaw_open := shapesGet bs (chars "jawOpen")
  eye_wide := (shapesGet bs (chars "eyeWideLeft")
    + shapesGet bs (chars "eyeWideRight")) / 2
  eye_squint := (shapesGet bs (chars "eyeSquintLeft")
    + shapesGet bs (chars "eyeSquintRight")) / 2

/-- The eight-rule ordered threshold cascade of spec section 4.3, first
match wins, written from the spec's rule table. -/
def cascadeSpec (m : FaceMetricsSpec) : Str × ℚ :=
  if m.smile > 3/10 ∧ m.eye_squint > 2/10 then
    (chars "happy", min (1/2 + m.smile) 1)
  else if m.frown > 3/10 then (chars "sad", 6/10 + m.frown * (3/10))
  else if m.brow_down > 3/10 then (chars "angry", 6/10 + m.brow_down * (3/10))
  else if m.jaw_open > 4/10 ∧ m.eye_wide > 3/10 then (chars "surprised", 7/10)
  else if m.brow_up > 3/10 ∧ m.eye_wide > 2/10 then (chars "fearful", 6/10)
  else if m.smile > 15/100 then (chars "happy", 1/2 + m.smile * (1/2))
  else if m.frown > 15/100 then (chars "sad", 1/2)
  else (chars "neutral", 1/2)

/-- A landmarker whose `detect` finds exactly one face with no blendshape
entries, over a trivial image type. -/
def oneFaceDetect : Unit → Except Str (List (List (Str × ℚ))) :=
  fun _ => Except.ok [[]]

/-- A landmarker whose `detect` finds no face, over a trivial image
type. -/
def noFaceDetect : Unit → Except Str (List (List (Str × ℚ))) :=
  fun _ => Except.ok []

/-- `headMatch` always succeeds on a string that extends the pattern. -/
theorem headMatch_append_self (p r : Str) : headMatch p (p ++ r) = true := by
  induction p with
  | nil => rfl
  | cons c cs ih => simp [headMatch, ih]

/-- `any` over a filtered-and-mapped list, folded back onto the base list. -/
theorem any_filter_map (l : List Str) (q : Str → Bool) (f : Str → Str)
    (p : Str → Bool) :
    ((l.filter q).map f).any p = l.any (fun k => q k && p (f k)) := by
  induction l with
  | nil => rfl
  | cons k rest ih => cases hq : q k <;> simp [List.filter_cons, hq, ih]

/-- A `"keyword:"`-prefixed trigger never passes the `"emotion:"` test. -/
theorem headMatch_em_kw (k : Str) :
    headMatch (chars "emotion:") (chars "keyword:" ++ k) = false := rfl

/-- An `"emotion:"`-prefixed trigger never passes the `"keyword:"` test. -/
theorem headMatch_kw_em (e : Str) :
    headMatch (chars "keyword:") (chars "emotion:" ++ e) = false := rfl

/-- ASCII case folding fixes whitespace characters. -/
theorem toLower_whitespace (c : Char) (h : c.isWhitespace = true) :
    c.toLower = c := by
  simp [Char.isWhitespace] at h
  rcases h with ((h | h) | h) | h <;> subst h <;> rfl

/-- Lowercasing preserves blankness. -/
theorem isBlank_lowerStr (t : Str) (h : isBlank t = true) :
    isBlank (lowerStr t) = true := by
  rw [isBlank, List.all_eq_true] at h ⊢
  intro c hc
  obtain ⟨d, hd, rfl⟩ := List.mem_map.mp hc
  rw [toLower_whitespace d (h d hd)]
  exact h d hd

/-- Every character of a matching pattern occurs in the text. -/
theorem mem_of_headMatch (p t : Str) (h : headMatch p t = true) :
    ∀ c ∈ p, c ∈ t := by
  induction p generalizing t with
  | nil => simp
  | cons a as ih =>
    cases t with
    | nil => simp [headMatch] at h
    | cons b bs =>
      rw [headMatch, Bool.and_eq_true] at h
      obtain ⟨hab, hrest⟩ := h
      intro c hc
      rcases List.mem_cons.mp hc with rfl | hc
      · rw [beq_iff_eq] at hab
        exact hab ▸ List.mem_cons_self b bs
      · exact List.mem_cons_of_mem _ (ih bs hrest c hc)

/-- Every character of a contained substring occurs in the text. -/
theorem mem_of_containsSub (p t : Str) (h : containsSub p t = true) :
    ∀ c ∈ p, c ∈ t := by
  induction t with
  | nil => exact mem_of_headMatch p [] h
  | cons b bs ih =>
    rw [containsSub, Bool.or_eq_true] at h
    rcases h with h1 | h2
    · exact mem_of_headMatch _ _ h1
    · intro c hc
      exact List.mem_cons_of_mem _ (ih h2 c hc)

/-- A lexicon hit on a lexicon of non-blank phrases forces the text to be
non-blank. -/
theorem lexAny_not_blank (lex : List Str) (text : Str)
    (hlex : lex.all (fun k => k.any (fun c => !c.isWhitespace)) = true)
    (h : lexAny lex text = true) : isBlank text = false := by
  by_contra hb
  have hb' : isBlank text = true := by
    cases hbv : isBlank text
    · exact absurd hbv hb
    · rfl
  have hlow := isBlank_lowerStr text hb'
  rw [lexAny, List.any_eq_true] at h
  obtain ⟨k, hk, hck⟩ := h
  rw [List.all_eq_true] at hlex
  have hk2 := hlex k hk
  rw [List.any_eq_true] at hk2
  obtain ⟨c, hcmem, hcw⟩ := hk2
  have hcin : c ∈ lowerStr text := mem_of_containsSub _ _ hck c hcmem
  rw [isBlank, List.all_eq_true] at hlow
  have := hlow c hcin
  simp only [Bool.not_eq_true'] at hcw
  rw [hcw] at this
  exact Bool.false_ne_true this

/-- The triggers produced by the keyword scan register as a keyword match. -/
theorem kwTriggers_any_kw (text : Str) :
    (kwTriggers (lowerStr text)).any
      (fun t => headMatch (chars "keyword:") t) = kwHit text := by
  rw [kwTriggers, any_filter_map, kwHit, lexAny]
  simp only [headMatch_append_self, Bool.and_true]

/-- The triggers produced by the keyword scan never register as an
emotion match. -/
theorem kwTriggers_any_em (text : Str) :
    (kwTriggers (lowerStr text)).any
      (fun t => headMatch (chars "emotion:") t) = false := by
  rw [kwTriggers, any_filter_map]
  simp [headMatch_em_kw]

/-- The emotion-signal trigger registers as an emotion match exactly when
the spec's emotion-signal condition holds. -/
theorem emTrigger_any_em (er : Option EmotionResult) :
    (emTrigger er).any (fun t => headMatch (chars "emotion:") t)
      = emHit er := by
  cases er with
  | none => rfl
  | some e =>
    rw [emTrigger, emHit]
    cases h : (CRISIS_EMOTIONS.contains (lowerStr e.emotion) &&
        decide (e.confidence > mkRat 7 10)) <;>
      simp [h, headMatch_append_self]

/-- The emotion-signal trigger never registers as a keyword match. -/
theorem emTrigger_any_kw (er : Option EmotionResult) :
    (emTrigger er).any (fun t => headMatch (chars "keyword:") t) = false := by
  cases er with
  | none => rfl
  | some e =>
    rw [emTrigger]
    cases h : (CRISIS_EMOTIONS.contains (lowerStr e.emotion) &&
        decide (e.confidence > mkRat 7 10)) <;>
      simp [h, headMatch_kw_em]

/-- Without an emotion-signal hit there is no emotion trigger. -/
theorem emTrigger_eq_nil (er : Option EmotionResult) (h : emHit er = false) :
    emTrigger er = [] := by
  cases er with
  | none => rfl
  | some e =>
    rw [emHit] at h
    rw [emTrigger, h]
    rfl

/-- Without a keyword hit the keyword scan produces no triggers. -/
theorem kwTriggers_eq_nil (text : Str) (h : kwHit text = false) :
    kwTriggers (lowerStr text) = [] := by
  rw [kwHit, lexAny] at h
  rw [kwTriggers]
  have hfil : CRISIS_KEYWORDS.filter
      (fun k => containsSub k (lowerStr text)) = [] := by
    rw [List.filter_eq_nil_iff]
    intro a ha
    rw [List.any_eq_false] at h
    simpa using h a ha
  rw [hfil, List.map_nil]

/-- On non-blank text, `detect_crisis` computes exactly the spec's fusion
decision table. -/
theorem detect_crisis_eq_spec (text : Str) (er : Option EmotionResult)
    (h : isBlank text = false) :
    detect_crisis text er = crisisTableSpec text er := by
  rw [detect_crisis, crisisTableSpec, if_neg (by simp [h])]
  simp only [List.any_append, kwTriggers_any_kw, kwTriggers_any_em,
    emTrigger_any_kw, emTrigger_any_em, Bool.false_or, Bool.or_false]
  cases hk : kwHit text <;> cases he : emHit er <;>
    simp [hk, he, emTrigger_eq_nil er, kwTriggers_eq_nil text]

/-- Every keyword trigger passes the `"keyword:"` test. -/
theorem mem_kwTriggers_kw (tl x : Str) (hx : x ∈ kwTriggers tl) :
    headMatch (chars "keyword:") x = true := by
  rw [kwTriggers] at hx
  obtain ⟨k, _, rfl⟩ := List.mem_map.mp hx
  exact headMatch_append_self _ _

/-- Every emotion trigger fails the `"keyword:"` test. -/
theorem mem_emTrigger_not_kw (er : Option EmotionResult) (x : Str)
    (hx : x ∈ emTrigger er) : headMatch (chars "keyword:") x = false := by
  cases er with
  | none => simp [emTrigger] at hx
  | some e =>
    rw [emTrigger] at hx
    by_cases h : (CRISIS_EMOTIONS.contains (lowerStr e.emotion) &&
        decide (e.confidence > mkRat 7 10)) = true
    · rw [if_pos h] at hx
      rw [List.mem_singleton.mp hx]
      exact headMatch_kw_em _
    · rw [if_neg h] at hx
      simp at hx

/-- A keyword hit yields at least one keyword trigger. -/
theorem kwTriggers_ne_nil (text : Str) (h : kwHit text = true) :
    kwTriggers (lowerStr text) ≠ [] := by
  rw [kwHit, lexAny, List.any_eq_true] at h
  obtain ⟨k, hk, hck⟩ := h
  rw [kwTriggers]
  intro hnil
  rw [List.map_eq_nil_iff, List.filter_eq_nil_iff] at hnil
  exact hnil k hk (by simpa using hck)

/-- An emotion-signal hit yields the singleton emotion trigger. -/
theorem emTrigger_ne_nil (er : Option EmotionResult) (h : emHit er = true) :
    emTrigger er ≠ [] := by
  cases er with
  | none => simp [emHit] at h
  | some e =>
    rw [emHit] at h
    rw [emTrigger, h]
    simp

/-- Keyword triggers survive the `"keyword:"` filter unchanged. -/
theorem kwTriggers_filter_kw (tl : Str) :
    (kwTriggers tl).filter (fun t => headMatch (chars "keyword:") t)
      = kwTriggers tl :=
  List.filter_eq_self.mpr (fun x hx => mem_kwTriggers_kw tl x hx)

/-- Emotion triggers are removed by the `"keyword:"` filter. -/
theorem emTrigger_filter_kw (er : Option EmotionResult) :
    (emTrigger er).filter (fun t => headMatch (chars "keyword:") t) = [] :=
  List.filter_eq_nil_iff.mpr
    (fun x hx => by simp [mem_emTrigger_not_kw er x hx])

/-- The keyword triggers are a sublist of the lexicon image, hence in
lexicon declaration order. -/
theorem kwTriggers_sublist (tl : Str) :
    List.Sublist (kwTriggers tl)
      (CRISIS_KEYWORDS.map (fun k => chars "keyword:" ++ k)) :=
  (List.filter_sublist _).map _

/-- The crisis keyword lexicon has no blank phrase. -/
theorem kwHit_not_blank (text : Str) (h : kwHit text = true) :
    isBlank text = false :=
  lexAny_not_blank CRISIS_KEYWORDS text (by decide) h

/-- Claim C4: on empty or whitespace-only text, `detect_crisis` returns
`is_crisis = false`, confidence `0`, no triggers and source `"empty"`,
for every emotion result; `detect_crisis` consults no predictor model on
any input, so the result is also independent of any loaded model. -/
theorem c4_empty_shortcircuit (text : Str) (er : Option EmotionResult)
    (h : isBlank text = true) :
    detect_crisis text er = ⟨false, 0, [], chars "empty"⟩ := by
  rw [detect_crisis]
  exact if_pos h

theorem c4_witness :
    isBlank (chars "  ") = true ∧
      detect_crisis (chars "  ") (some ⟨chars "sadness", mkRat 9 10⟩)
        = ⟨false, 0, [], chars "empty"⟩ :=
  ⟨by decide, c4_empty_shortcircuit _ _ (by decide)⟩

/-- Claim C2: on text that is not empty or whitespace-only, for every
emotion result, `detect_crisis` computes exactly the spec's fusion
decision table `crisisTableSpec` — emotion trigger iff high-risk label
with confidence above 0.7, then (0.95, combined) / (0.85, keyword) /
(0.60, emotion, only when length > 50) / (0.1, none). -/
theorem c2_fusion_table (text : Str) (er : Option EmotionResult)
    (h : isBlank text = false) :
    detect_crisis text er = crisisTableSpec text er :=
  detect_crisis_eq_spec text er h

theorem c2_witness :
    isBlank (chars "hopeless") = false ∧
      detect_crisis (chars "hopeless") none
        = ⟨true, mkRat 85 100, [chars "keyword:hopeless"], chars "keyword"⟩ ∧
      detect_crisis
        (chars "I have been feeling very sad and completely alone for weeks now")
        (some ⟨chars "sadness", mkRat 9 10⟩)
        = ⟨true, mkRat 6 10, [chars "emotion:sadness"], chars "emotion"⟩ :=
  ⟨by decide,
   by rw [c2_fusion_table (chars "hopeless") none (by decide)]; decide,
   by rw [c2_fusion_table
        (chars "I have been feeling very sad and completely alone for weeks now")
        (some ⟨chars "sadness", mkRat 9 10⟩) (by decide)]; decide⟩

/-- Claim C10: whenever `detect_crisis` answers `is_crisis = false` on
non-blank text, the returned trigger list is empty — any triggers
collected during the call (in particular an emotion-signal trigger on
text of 50 characters or fewer) are discarded. -/
theorem c10_no_audit_trail (text : Str) (er : Option EmotionResult)
    (h1 : isBlank text = false)
    (h2 : (detect_crisis text er).is_crisis = false) :
    (detect_crisis text er).triggers = [] := by
  rw [detect_crisis_eq_spec text er h1] at h2 ⊢
  rw [crisisTableSpec] at h2 ⊢
  cases hk : kwHit text <;> cases he : emHit er <;>
    cases hl : (decide (text.length > 50)) <;>
    simp [hk, he, hl] at h2 ⊢

theorem c10_witness :
    isBlank (chars "I feel blue") = false ∧
      emHit (some ⟨chars "sadness", mkRat 9 10⟩) = true ∧
      (chars "I feel blue").length ≤ 50 ∧
      (detect_crisis (chars "I feel blue")
        (some ⟨chars "sadness", mkRat 9 10⟩)).is_crisis = false ∧
      (detect_crisis (chars "I feel blue")
        (some ⟨chars "sadness", mkRat 9 10⟩)).triggers = [] :=
  ⟨by decide, by decide, by decide, by decide,
   c10_no_audit_trail _ _ (by decide) (by decide)⟩

/-- Claim C6: every `is_crisis = true` verdict of `detect_crisis` carries
a non-empty trigger sequence (or would be predictor-sourced, which
`detect_crisis` never emits), and its keyword triggers are a sublist of
the lexicon image, i.e. in lexicon declaration order. -/
theorem c6_triggers_explain (text : Str) (er : Option EmotionResult)
    (h : (detect_crisis text er).is_crisis = true) :
    ((detect_crisis text er).triggers ≠ [] ∨
      (detect_crisis text er).source = chars "predictor") ∧
    List.Sublist
      ((detect_crisis text er).triggers.filter
        (fun t => headMatch (chars "keyword:") t))
      (CRISIS_KEYWORDS.map (fun k => chars "keyword:" ++ k)) := by
  by_cases hb : isBlank text = true
  · rw [detect_crisis, if_pos hb] at h
    exact absurd h (by simp)
  · have hb' : isBlank text = false := by
      cases hbv : isBlank text
      · rfl
      · exact absurd hbv hb
    rw [detect_crisis_eq_spec text er hb'] at h ⊢
    rw [crisisTableSpec] at h ⊢
    by_cases hk : kwHit text = true
    · by_cases he : emHit er = true
      · rw [if_pos (show (kwHit text && emHit er) = true by rw [hk, he]; rfl)] at h ⊢
        refine ⟨Or.inl ?_, ?_⟩
        · intro hnil
          rcases List.append_eq_nil.mp hnil with ⟨hknil, _⟩
          exact kwTriggers_ne_nil text hk hknil
        · show List.Sublist ((kwTriggers (lowerStr text)
            ++ emTrigger er).filter (fun t => headMatch (chars "keyword:") t)) _
          rw [List.filter_append, kwTriggers_filter_kw, emTrigger_filter_kw,
            List.append_nil]
          exact kwTriggers_sublist _
      · have he' : emHit er = false := by
          cases hev : emHit er
          · rfl
          · exact absurd hev he
        rw [if_neg (show ¬(kwHit text && emHit er) = true by
              rw [hk, he']; simp),
          if_pos hk] at h ⊢
        refine ⟨Or.inl (kwTriggers_ne_nil text hk), ?_⟩
        show List.Sublist ((kwTriggers (lowerStr text)).filter
          (fun t => headMatch (chars "keyword:") t)) _
        rw [kwTriggers_filter_kw]
        exact kwTriggers_sublist _
    · have hk' : kwHit text = false := by
        cases hkv : kwHit text
        · rfl
        · exact absurd hkv hk
      rw [if_neg (show ¬(kwHit text && emHit er) = true by rw [hk']; simp),
        if_neg hk] at h ⊢
      by_cases hl : (emHit er && decide (text.length > 50)) = true
      · rw [if_pos hl] at h ⊢
        have he : emHit er = true := by
          rw [Bool.and_eq_true] at hl
          exact hl.1
        refine ⟨Or.inl (emTrigger_ne_nil er he), ?_⟩
        show List.Sublist ((emTrigger er).filter
          (fun t => headMatch (chars "keyword:") t)) _
        rw [emTrigger_filter_kw]
        exact List.nil_sublist _
      · rw [if_neg hl] at h
        exact absurd h (by simp)

theorem c6_witness :
    (detect_crisis (chars "worthless") none).triggers ≠ [] ∨
      (detect_crisis (chars "worthless") none).source = chars "predictor" :=
  (c6_triggers_explain (chars "worthless") none (by decide)).1

/-- The `AIEngine` crisis keyword lexicon also has no blank phrase. -/
theorem aiKw_not_blank (text : Str)
    (h : lexAny ai_crisis_keywords text = true) : isBlank text = false :=
  lexAny_not_blank ai_crisis_keywords text (by decide) h

/-- Claim C1 counterexample: the text `"suicide"` contains a crisis
lexicon phrase (of both lexicons), yet on the `AIEngine.analyze_text`
crisis-decision call path an available crisis model producing the
negative verdict `"0"` yields `is_crisis = false`: keywords are skipped
exactly because a model exists. -/
theorem c1_counterexample :
    lexAny CRISIS_KEYWORDS (chars "suicide") = true ∧
    lexAny ai_crisis_keywords (chars "suicide") = true ∧
    (AIEngine_analyze_text none none (some negCrisisModel)
      (chars "suicide")).is_crisis = false := by decide

/-- Claim C1 (amended): the keyword safety net holds on the
`detect_crisis` path unconditionally — a lexicon phrase in the text
forces `is_crisis = true` for every emotion result — and on the
`AIEngine.analyze_text` path only when no crisis model is loaded
(`crisis_model = none`), for any sentiment/emotion models. -/
theorem c1_keyword_safety_net (text : Str) (er : Option EmotionResult) :
    (kwHit text = true → (detect_crisis text er).is_crisis = true) ∧
    (lexAny ai_crisis_keywords text = true →
      ∀ sm em : Option Predict,
        (AIEngine_analyze_text sm em none text).is_crisis = true) := by
  constructor
  · intro h
    have hb := kwHit_not_blank text h
    rw [detect_crisis_eq_spec text er hb, crisisTableSpec]
    by_cases he : emHit er = true
    · rw [if_pos (show (kwHit text && emHit er) = true by rw [h, he]; rfl)]
    · have he' : emHit er = false := by
        cases hev : emHit er
        · rfl
        · exact absurd hev he
      rw [if_neg (show ¬(kwHit text && emHit er) = true by rw [h, he']; simp),
        if_pos h]
  · intro h sm em
    have hb := aiKw_not_blank text h
    have hne : (text == []) = false := by
      cases text with
      | nil => simp [isBlank] at hb
      | cons c cs => rfl
    rw [lexAny] at h
    rw [AIEngine_analyze_text.eq_def, hne]
    simp only [Bool.false_eq_true, if_false, h, if_true]

theorem c1_witness :
    (detect_crisis (chars "give up") none).is_crisis = true ∧
    (AIEngine_analyze_text none none none (chars "overdose")).is_crisis
      = true :=
  ⟨(c1_keyword_safety_net (chars "give up") none).1 (by decide),
   (c1_keyword_safety_net (chars "overdose") none).2 (by decide) none none⟩

/-- Claim C5 counterexample: on `"happy depressed crying"` the sadness
category has strictly the most lexicon hits (2, against 1 for joy), yet
the emotion fallback returns `"joy"` — the first declared category with
any hit — so the emotion fallback does not pick the category with the
strictly greatest hit count. -/
theorem c5_counterexample :
    emotion_keywords.map
        (fun p => (p.1, hitCount p.2 (lowerStr (chars "happy depressed crying"))))
      = [(chars "joy", 1), (chars "sadness", 2), (chars "anger", 0),
         (chars "fear", 0), (chars "surprise", 0)] ∧
    (analyze_emotion_fallback (chars "happy depressed crying")).emotion
      = chars "joy" := by decide

/-- The emotion fallback loop returns the first declared category with a
hit. -/
theorem emotionLoop_eq_firstHit (tl : Str) (l : List (Str × List Str)) :
    emotionLoop tl l =
      match l.find? (fun p => p.2.any (fun kw => containsSub kw tl)) with
      | some p => ⟨p.1, mkRat 6 10, [], chars "fallback"⟩
      | none => ⟨chars "neutral", mkRat 1 2, [], chars "fallback"⟩ := by
  induction l with
  | nil => rfl
  | cons p rest ih =>
    cases p with
    | mk emo kws =>
      rw [emotionLoop, ih]
      cases hp : kws.any (fun kw => containsSub kw tl) <;>
        simp [List.find?, hp]

/-- Claim C5 (amended): with the predictor unavailable, the sentiment
fallback counts lexicon hits per category and returns the category with
strictly more hits (ties, including zero-zero, resolve to neutral at
confidence 0.5, otherwise confidence 0.6); the emotion fallback instead
returns the first declared category with any hit at confidence 0.6
(neutral 0.5 when no category hits). -/
theorem c5_fallback_resolution (text : Str) (h : isBlank text = false) :
    analyze_sentiment_fallback text =
      (if hitCount positive_words (lowerStr text)
          > hitCount negative_words (lowerStr text) then
        ⟨chars "positive", mkRat 6 10, chars "fallback"⟩
      else if hitCount negative_words (lowerStr text)
          > hitCount positive_words (lowerStr text) then
        ⟨chars "negative", mkRat 6 10, chars "fallback"⟩
      else ⟨chars "neutral", mkRat 1 2, chars "fallback"⟩) ∧
    analyze_emotion_fallback text = emotionFirstHitSpec (lowerStr text) := by
  constructor
  · rw [analyze_sentiment_fallback, if_neg (by rw [h]; exact Bool.false_ne_true)]
    rfl
  · rw [analyze_emotion_fallback, if_neg (by rw [h]; exact Bool.false_ne_true),
      emotionFirstHitSpec]
    exact emotionLoop_eq_firstHit _ _

theorem c5_witness :
    isBlank (chars "happy but so depressed and crying") = false ∧
    analyze_sentiment_fallback (chars "happy but so depressed and crying")
      = ⟨chars "positive", mkRat 6 10, chars "fallback"⟩ ∧
    analyze_emotion_fallback (chars "happy but so depressed and crying")
      = emotionFirstHitSpec (lowerStr (chars "happy but so depressed and crying")) :=
  ⟨by decide,
   by rw [(c5_fallback_resolution (chars "happy but so depressed and crying")
        (by decide)).1]; decide,
   (c5_fallback_resolution (chars "happy but so depressed and crying")
      (by decide)).2⟩

/-- The code's classifier is the spec's cascade over the spec's derived
metrics. -/
theorem blendshapes_spec_eq (bs : List (Str × ℚ)) :
    blendshapes_to_emotion bs = cascadeSpec (faceMetricsOfShapes bs) := rfl

/-- Claim C3: the blendshape classifier derives the averaged/direct
metrics and applies the spec's eight ordered threshold rules, first match
winning; the strong-smile example yields ("happy", 1.0) and the all-zero
input yields ("neutral", 0.5). -/
theorem c3_blendshape_cascade :
    (∀ bs, blendshapes_to_emotion bs = cascadeSpec (faceMetricsOfShapes bs)) ∧
    blendshapes_to_emotion
      [(chars "mouthSmileLeft", 1/2), (chars "mouthSmileRight", 1/2),
       (chars "eyeSquintLeft", 3/10), (chars "eyeSquintRight", 3/10)]
      = (chars "happy", 1) ∧
    blendshapes_to_emotion [] = (chars "neutral", 1/2) := by
  refine ⟨fun bs => blendshapes_spec_eq bs, ?_, ?_⟩
  · simp +decide [blendshapes_to_emotion, shapesGet, lookupD, chars]
    norm_num
  · simp +decide [blendshapes_to_emotion, shapesGet, lookupD]
    norm_num

/-- Dict lookup with default 0 stays within the score bounds. -/
theorem lookupD_bounds (l : List (Str × ℚ)) (name : Str)
    (h : ∀ p ∈ l, 0 ≤ p.2 ∧ p.2 ≤ 1) :
    0 ≤ lookupD l name ∧ lookupD l name ≤ 1 := by
  induction l with
  | nil => exact ⟨le_refl 0, by norm_num [lookupD]⟩
  | cons p rest ih =>
    rw [lookupD]
    cases hp : (p.1 == name)
    · rw [if_neg Bool.false_ne_true]
      exact ih (fun q hq => h q (List.mem_cons_of_mem _ hq))
    · rw [if_pos rfl]
      exact h p (List.mem_cons_self _ _)

/-- `shapesGet` stays within the score bounds. -/
theorem shapesGet_bounds (bs : List (Str × ℚ)) (name : Str)
    (h : ∀ p ∈ bs, 0 ≤ p.2 ∧ p.2 ≤ 1) :
    0 ≤ shapesGet bs name ∧ shapesGet bs name ≤ 1 :=
  lookupD_bounds bs.reverse name
    (fun p hp => h p (List.mem_reverse.mp hp))

/-- Claim C8 counterexample: on a blendshape mapping with scores outside
[0,1] the sad rule's formula `0.6 + frown * 0.3` exceeds 1 — no rule
formula except the strong-smile `min` clamps its result, so the [0,1]
bound is not enforced by the formulas alone. -/
theorem c8_counterexample :
    1 < (blendshapes_to_emotion
      [(chars "mouthFrownLeft", 2), (chars "mouthFrownRight", 2)]).2 := by
  simp +decide [blendshapes_to_emotion, shapesGet, lookupD, chars]
  norm_num

/-- Claim C8 (amended): for every blendshape mapping whose scores lie in
[0,1], the classifier's confidence lies in [0,1]; only the strong-smile
rule clamps explicitly with `min`, the remaining rules depend on the
input bounds. -/
theorem c8_confidence_bounds (bs : List (Str × ℚ))
    (h : ∀ p ∈ bs, 0 ≤ p.2 ∧ p.2 ≤ 1) :
    0 ≤ (blendshapes_to_emotion bs).2 ∧ (blendshapes_to_emotion bs).2 ≤ 1 := by
  rw [blendshapes_spec_eq]
  have B := fun name => shapesGet_bounds bs name h
  have h1 := B (chars "mouthSmileLeft")
  have h2 := B (chars "mouthSmileRight")
  have h3 := B (chars "mouthFrownLeft")
  have h4 := B (chars "mouthFrownRight")
  have h5 := B (chars "browDownLeft")
  have h6 := B (chars "browDownRight")
  have h7 := B (chars "browInnerUp")
  have h8 := B (chars "jawOpen")
  have h9 := B (chars "eyeWideLeft")
  have h10 := B (chars "eyeWideRight")
  have h11 := B (chars "eyeSquintLeft")
  have h12 := B (chars "eyeSquintRight")
  have hsm : 0 ≤ (faceMetricsOfShapes bs).smile
      ∧ (faceMetricsOfShapes bs).smile ≤ 1 := by
    constructor <;> rw [faceMetricsOfShapes] <;> dsimp only <;> linarith
  have hfr : 0 ≤ (faceMetricsOfShapes bs).frown
      ∧ (faceMetricsOfShapes bs).frown ≤ 1 := by
    constructor <;> rw [faceMetricsOfShapes] <;> dsimp only <;> linarith
  have hbd : 0 ≤ (faceMetricsOfShapes bs).brow_down
      ∧ (faceMetricsOfShapes bs).brow_down ≤ 1 := by
    constructor <;> rw [faceMetricsOfShapes] <;> dsimp only <;> linarith
  rw [cascadeSpec]
  split_ifs
  · constructor
    · exact le_min (by linarith [hsm.1]) (by norm_num)
    · exact min_le_right _ _
  · have hmul1 : 0 ≤ (faceMetricsOfShapes bs).frown * (3/10) :=
      mul_nonneg hfr.1 (by norm_num)
    have hmul2 : (faceMetricsOfShapes bs).frown * (3/10) ≤ 1 * (3/10) :=
      mul_le_mul_of_nonneg_right hfr.2 (by norm_num)
    constructor <;> dsimp only <;> linarith
  · have hmul1 : 0 ≤ (faceMetricsOfShapes bs).brow_down * (3/10) :=
      mul_nonneg hbd.1 (by norm_num)
    have hmul2 : (faceMetricsOfShapes bs).brow_down * (3/10) ≤ 1 * (3/10) :=
      mul_le_mul_of_nonneg_right hbd.2 (by norm_num)
    constructor <;> dsimp only <;> linarith
  · constructor <;> norm_num
  · constructor <;> norm_num
  · have hmul1 : 0 ≤ (faceMetricsOfShapes bs).smile * (1/2) :=
      mul_nonneg hsm.1 (by norm_num)
    have hmul2 : (faceMetricsOfShapes bs).smile * (1/2) ≤ 1 * (1/2) :=
      mul_le_mul_of_nonneg_right hsm.2 (by norm_num)
    constructor <;> dsimp only <;> linarith
  · constructor <;> norm_num
  · constructor <;> norm_num

theorem c8_witness :
    0 ≤ (blendshapes_to_emotion []).2 ∧ (blendshapes_to_emotion []).2 ≤ 1 :=
  c8_confidence_bounds [] (by simp)

/-- Claim C7: `detect_face_emotion` is total (the embedding is a function)
and on each failure path — landmarker unavailable, image decode failure,
inference exception, zero faces — returns emotion "neutral", confidence 0
and `face_detected = false`, with source tags "error" / "decode_error" /
"error" / "no_face"; the three causes named by the claim carry pairwise
distinct tags and `face_detected = true` occurs only on the genuine
detection path, whose source is "mediapipe". -/
theorem c7_face_failures {Img : Type}
    (detect : Img → Except Str (List (List (Str × ℚ))))
    (decode : Str → Option Img) (b : Str) :
    detect_face_emotion none decode b =
      ⟨chars "neutral", 0, false, none, chars "error",
        some (chars "Face landmarker not available")⟩ ∧
    (decode b = none →
      detect_face_emotion (some detect) decode b =
        ⟨chars "neutral", 0, false, none, chars "decode_error", none⟩) ∧
    (∀ img, decode b = some img → ∀ e, detect img = Except.error e →
      detect_face_emotion (some detect) decode b =
        ⟨chars "neutral", 0, false, none, chars "error", some e⟩) ∧
    (∀ img, decode b = some img → detect img = Except.ok [] →
      detect_face_emotion (some detect) decode b =
        ⟨chars "neutral", 0, false, none, chars "no_face", none⟩) ∧
    ((detect_face_emotion (some detect) decode b).face_detected = true →
      (detect_face_emotion (some detect) decode b).source
        = chars "mediapipe") := by
  refine ⟨rfl, ?_, ?_, ?_, ?_⟩
  · intro h
    simp [detect_face_emotion, h]
  · intro img h e hdet
    simp [detect_face_emotion, h, hdet]
  · intro img h hdet
    simp [detect_face_emotion, h, hdet]
  · cases hdec : decode b with
    | none =>
      intro hfd
      simp [detect_face_emotion, hdec] at hfd
    | some img =>
      cases hdet : detect img with
      | error e =>
        intro hfd
        simp [detect_face_emotion, hdec, hdet] at hfd
      | ok faces =>
        cases faces with
        | nil =>
          intro hfd
          simp [detect_face_emotion, hdec, hdet] at hfd
        | cons f rest =>
          intro hfd
          simp [detect_face_emotion, hdec, hdet]

theorem c7_witness :
    detect_face_emotion none (fun _ => (none : Option Unit)) (chars "x")
      = ⟨chars "neutral", 0, false, none, chars "error",
          some (chars "Face landmarker not available")⟩ ∧
    detect_face_emotion (some noFaceDetect) (fun _ => (none : Option Unit))
      (chars "x")
      = ⟨chars "neutral", 0, false, none, chars "decode_error", none⟩ ∧
    detect_face_emotion (some noFaceDetect) (fun _ => some ()) (chars "x")
      = ⟨chars "neutral", 0, false, none, chars "no_face", none⟩ :=
  ⟨(c7_face_failures noFaceDetect (fun _ => (none : Option Unit))
      (chars "x")).1,
   (c7_face_failures noFaceDetect (fun _ => (none : Option Unit))
      (chars "x")).2.1 rfl,
   (c7_face_failures noFaceDetect (fun _ => some ()) (chars "x")).2.2.2.1
      () rfl rfl⟩

/-- Claim C9 evidence: on any detected face the composite result's
metrics mapping has exactly the keys smile, frown, brow_down and
jaw_open; the keys mouth_open, eye_openness and brow_raise that the
controller's logging reads (`ai_controller.py` line 144) are absent. -/
theorem c9_metrics_keys :
    (((detect_face_emotion (some oneFaceDetect) (fun _ => some ())
        (chars "img")).metrics.getD []).map Prod.fst
      = [chars "smile", chars "frown", chars "brow_down", chars "jaw_open"]) ∧
    ¬ (chars "mouth_open") ∈ (((detect_face_emotion (some oneFaceDetect)
        (fun _ => some ()) (chars "img")).metrics.getD []).map Prod.fst) ∧
    ¬ (chars "eye_openness") ∈ (((detect_face_emotion (some oneFaceDetect)
        (fun _ => some ()) (chars "img")).metrics.getD []).map Prod.fst) ∧
    ¬ (chars "brow_raise") ∈ (((detect_face_emotion (some oneFaceDetect)
        (fun _ => some ()) (chars "img")).metrics.getD []).map Prod.fst) := by
  refine ⟨rfl, ?_, ?_, ?_⟩ <;> decide
